import Mathlib

/-!
Shallow embedding of the PIDPLAYGROUND repository core
(`pid_controller.py`, `system_simulation.py`, and the simulation loop of
`pid_playground.py`) over exact rational arithmetic, together with proofs
of the specification claims about it.
-/

/-- Embedding of the Python class `PIDController` (`pid_controller.py`):
the three gains, the mutable internal state (`integral`, `previous_error`),
the optional `output_limits` tuple, and the last-computed component values. -/
structure PIDController where
  Kp : ℚ
  Ki : ℚ
  Kd : ℚ
  integral : ℚ
  previous_error : ℚ
  output_limits : Option (ℚ × ℚ)
  proportional_term : ℚ
  integral_term : ℚ
  derivative_term : ℚ
  deriving Repr, DecidableEq

/-- `PIDController.__init__(Kp, Ki, Kd, output_limits=None)`: gains stored,
state and component values zeroed. -/
def PIDController.init (Kp Ki Kd : ℚ) (output_limits : Option (ℚ × ℚ)) :
    PIDController :=
  { Kp := Kp, Ki := Ki, Kd := Kd
    integral := 0, previous_error := 0
    output_limits := output_limits
    proportional_term := 0, integral_term := 0, derivative_term := 0 }

/-- `PIDController.update(error, dt)`: returns the post-call controller state
together with the returned control signal.  Mirrors the Python source line by
line: P term, integral accumulation, I term, derivative guarded by `dt > 0`,
raw sum, then the optional clamp with anti-windup back-solve of the integral
(guarded by `Ki != 0`), and finally the unconditional `previous_error` store. -/
def PIDController.update (c : PIDController) (error dt : ℚ) :
    PIDController × ℚ :=
  let p := c.Kp * error
  let integral1 := c.integral + error * dt
  let i := c.Ki * integral1
  let d := c.Kd * (if 0 < dt then (error - c.previous_error) / dt else 0)
  let output := p + i + d
  match c.output_limits with
  | some (min_output, max_output) =>
    if max_output < output then
      let integral2 := if c.Ki ≠ 0 then (max_output - p - d) / c.Ki else 0
      ({ c with integral := integral2, previous_error := error,
                proportional_term := p, integral_term := i,
                derivative_term := d }, max_output)
    else if output < min_output then
      let integral2 := if c.Ki ≠ 0 then (min_output - p - d) / c.Ki else 0
      ({ c with integral := integral2, previous_error := error,
                proportional_term := p, integral_term := i,
                derivative_term := d }, min_output)
    else
      ({ c with integral := integral1, previous_error := error,
                proportional_term := p, integral_term := i,
                derivative_term := d }, output)
  | none =>
      ({ c with integral := integral1, previous_error := error,
                proportional_term := p, integral_term := i,
                derivative_term := d }, output)

/-- `PIDController.reset()`: zero the internal state and the component values,
leaving gains and limits untouched. -/
def PIDController.reset (c : PIDController) : PIDController :=
  { c with integral := 0, previous_error := 0,
           proportional_term := 0, integral_term := 0, derivative_term := 0 }

/-- Run a controller through a list of `(error, dt)` calls, collecting for each
call the returned control signal together with the component values
(`proportional_term`, `integral_term`, `derivative_term`) stored by that call. -/
def PIDController.runTrace (c : PIDController) :
    List (ℚ × ℚ) → List (ℚ × ℚ × ℚ × ℚ)
  | [] => []
  | (e, dt) :: rest =>
      let r := c.update e dt
      (r.2, r.1.proportional_term, r.1.integral_term, r.1.derivative_term) ::
        r.1.runTrace rest

/-- The errors a simulation-side call can signal.  `unknownSystemType` embeds
the `ValueError("Unknown system type: ...")` raised by
`SystemSimulation._initialize_system`; `zeroDivisionError` embeds the Python
`ZeroDivisionError` raised by an unguarded division by zero (there is no guard
in `_update_first_order`); `indexError` embeds the Python `IndexError` raised
by the driver loop's trailing negative-index accesses on too-short arrays;
`invalidParameter` is the error name the specification's taxonomy uses for a
zero time constant — the source never produces it, it is present so that
statements about the spec's taxonomy can be expressed. -/
inductive SimError where
  | unknownSystemType (tag : String)
  | zeroDivisionError
  | indexError
  | invalidParameter
  deriving Repr, DecidableEq

/-- The parameter mapping handed to `SystemSimulation.__init__`: each of the
four keys the source ever looks up (`time_constant`, `gain`, `damping`,
`natural_freq`) is either present with a rational value or absent. -/
structure Params where
  time_constant : Option ℚ
  gain : Option ℚ
  damping : Option ℚ
  natural_freq : Option ℚ
  deriving Repr, DecidableEq

/-- Embedding of the Python class `SystemSimulation` after a successful
`_initialize_system`: the type tag, the resolved per-type parameters and the
state (`output`, `output_dot`).  Parameters that the Python branch for the
given tag never assigns are carried as `0` here; no update path for that tag
ever reads them. -/
structure SystemSimulation where
  system_type : String
  time_constant : ℚ
  gain : ℚ
  damping : ℚ
  natural_freq : ℚ
  output : ℚ
  output_dot : ℚ
  deriving Repr, DecidableEq

/-- `SystemSimulation.__init__(system_type, params)` followed by
`_initialize_system`: state zeroed, per-type parameters read from `params`
with `dict.get` defaults (`time_constant` 1.0, `gain` 1.0, `damping` 0.5,
`natural_freq` 1.0); an unrecognized tag raises at construction time. -/
def SystemSimulation.init (system_type : String) (params : Params) :
    Except SimError SystemSimulation :=
  if system_type = "First Order" then
    .ok { system_type := system_type
          time_constant := params.time_constant.getD 1
          gain := params.gain.getD 1
          damping := 0, natural_freq := 0, output := 0, output_dot := 0 }
  else if system_type = "Second Order" then
    .ok { system_type := system_type
          time_constant := 0
          damping := params.damping.getD (1/2)
          natural_freq := params.natural_freq.getD 1
          gain := params.gain.getD 1
          output := 0, output_dot := 0 }
  else if system_type = "Integrator" then
    .ok { system_type := system_type
          time_constant := 0
          gain := params.gain.getD 1
          damping := 0, natural_freq := 0, output := 0, output_dot := 0 }
  else
    .error (.unknownSystemType system_type)

/-- `SystemSimulation.update(input_signal, dt)`, dispatching on the type tag
exactly as the Python `update` does.  First order: Python computes
`(gain*u - output) / time_constant` with `/` raising `ZeroDivisionError` when
`time_constant` is zero, then `output += dydt*dt`.  Second order: both
derivatives are computed from the pre-update state, then both state
components are advanced.  Integrator: `output += gain*u*dt`.  After a
successful construction the tag is always one of the three recognized
strings; for any other tag Python falls off the end of `update` returning
`None`, embedded here as `(s, 0)` on an unreachable branch. -/
def SystemSimulation.update (s : SystemSimulation) (input_signal dt : ℚ) :
    Except SimError (SystemSimulation × ℚ) :=
  if s.system_type = "First Order" then
    if s.time_constant = 0 then .error .zeroDivisionError
    else
      let dydt := (s.gain * input_signal - s.output) / s.time_constant
      let y := s.output + dydt * dt
      .ok ({ s with output := y }, y)
  else if s.system_type = "Second Order" then
    let wn := s.natural_freq
    let zeta := s.damping
    let dx1dt := s.output_dot
    let dx2dt := -(wn * wn * s.output) - 2 * zeta * wn * s.output_dot +
      wn * wn * s.gain * input_signal
    let y := s.output + dx1dt * dt
    let ydot := s.output_dot + dx2dt * dt
    .ok ({ s with output := y, output_dot := ydot }, y)
  else if s.system_type = "Integrator" then
    let dydt := s.gain * input_signal
    let y := s.output + dydt * dt
    .ok ({ s with output := y }, y)
  else
    .ok (s, 0)

/-- Apply `SystemSimulation.update` `n` times with the same input and step. -/
def SystemSimulation.iterate (s : SystemSimulation) (input_signal dt : ℚ) :
    ℕ → Except SimError SystemSimulation
  | 0 => .ok s
  | n + 1 => do
      let r ← s.update input_signal dt
      r.1.iterate input_signal dt n

/-- `Except.ok` passes through monadic bind. -/
theorem exceptBind_ok {ε α β : Type} (a : α) (f : α → Except ε β) :
    (Except.ok a : Except ε α) >>= f = f a := rfl

/-- `Except.error` short-circuits monadic bind. -/
theorem exceptBind_error {ε α β : Type} (e : ε) (f : α → Except ε β) :
    (Except.error e : Except ε α) >>= f = .error e := rfl

/-- `numpy.linspace(0, stop, num)`: `num` evenly spaced samples from `0` to
`stop`, endpoints included, so sample `i` is `i*stop/(num-1)`; `num = 1`
yields the single sample `0` and `num = 0` the empty array. -/
def linspace (stop : ℚ) (num : ℕ) : List ℚ :=
  (List.range num).map fun i : ℕ =>
    if num = 1 then 0 else (i : ℚ) * stop / ((num : ℚ) - 1)

/-- The four time-series arrays the simulation run of `pid_playground.py`
produces. -/
structure SimData where
  time : List ℚ
  output : List ℚ
  control_signal : List ℚ
  error : List ℚ
  deriving Repr, DecidableEq

/-- The body of the driver loop `for i in range(1, time_steps)`, run `n`
times from previous plant output `yprev`: each step computes
`error = setpoint - yprev`, feeds it to `PIDController.update`, feeds the
control into `SystemSimulation.update`, and recurses on the new plant output.
Returns the `error`, `control_signal` and `output` entries the loop filled
in, in order. -/
def simSteps (setpoint dt : ℚ) :
    ℕ → PIDController → SystemSimulation → ℚ →
      Except SimError (List ℚ × List ℚ × List ℚ)
  | 0, _, _, _ => .ok ([], [], [])
  | n + 1, pid, sys, yprev => do
      let e := setpoint - yprev
      let r := pid.update e dt
      let su ← sys.update r.2 dt
      let rest ← simSteps setpoint dt n r.1 su.1 su.2
      .ok (e :: rest.1, r.2 :: rest.2.1, su.2 :: rest.2.2)

/-- The simulation run of `pid_playground.py` (the body of the
`Run Simulation` branch of `main`): `time_steps = int(sim_time/dt)`,
`time_array = np.linspace(0, sim_time, time_steps)`, fixed-size arrays with
`output[0] = 0`, the loop `for i in range(1, time_steps)`, then the trailing
fixups `error[-1] = setpoint - output[-1]` and
`control_signal[-1] = control_signal[-2]`.  When `time_steps <= 1` those
trailing negative-index accesses raise `IndexError` in Python (`[-1]` on an
empty array, or `[-2]` on a length-1 array), embedded as `.error .indexError`.
The controller is constructed as `PIDController(Kp, Ki, Kd)` with no output
limits, exactly as in the source. -/
def simulate (Kp Ki Kd setpoint sim_time dt : ℚ)
    (sys : SystemSimulation) : Except SimError SimData :=
  let time_steps := (⌊sim_time / dt⌋).toNat
  if time_steps ≤ 1 then .error .indexError
  else do
    let pid := PIDController.init Kp Ki Kd none
    let r ← simSteps setpoint dt (time_steps - 1) pid sys 0
    let output := 0 :: r.2.2
    let control_signal := r.2.1 ++ [r.2.1.getLastD 0]
    let error := r.1 ++ [setpoint - output.getLastD 0]
    .ok { time := linspace sim_time time_steps
          output := output
          control_signal := control_signal
          error := error }

/-- Claim C1: when `output_limits = (lo, hi)` is set and `Ki ≠ 0`, an `update`
whose unsaturated sum `P + I + D` exceeds `hi` (respectively falls below `lo`)
returns exactly `hi` (resp. `lo`), and the integral is back-solved so that
recomputing `Kp*error + Ki*integral + Kd*derivative` from the stored integral,
with this step's pre-clamp derivative, reproduces the saturated output
exactly. -/
theorem pid_update_antiwindup_consistency (c : PIDController) (e dt lo hi : ℚ)
    (hl : c.output_limits = some (lo, hi)) (hlohi : lo ≤ hi) (hKi : c.Ki ≠ 0) :
    (hi < c.Kp * e + c.Ki * (c.integral + e * dt) +
        c.Kd * (if 0 < dt then (e - c.previous_error) / dt else 0) →
      (c.update e dt).2 = hi ∧
      c.Kp * e + c.Ki * (c.update e dt).1.integral +
        c.Kd * (if 0 < dt then (e - c.previous_error) / dt else 0) = hi) ∧
    (c.Kp * e + c.Ki * (c.integral + e * dt) +
        c.Kd * (if 0 < dt then (e - c.previous_error) / dt else 0) < lo →
      (c.update e dt).2 = lo ∧
      c.Kp * e + c.Ki * (c.update e dt).1.integral +
        c.Kd * (if 0 < dt then (e - c.previous_error) / dt else 0) = lo) := by
  constructor
  · intro hgt
    simp only [PIDController.update, hl, if_pos hgt, if_pos hKi]
    refine ⟨trivial, ?_⟩
    field_simp
    ring
  · intro hlt
    have hngt : ¬ hi < c.Kp * e + c.Ki * (c.integral + e * dt) +
        c.Kd * (if 0 < dt then (e - c.previous_error) / dt else 0) :=
      not_lt.mpr (le_of_lt (lt_of_lt_of_le hlt hlohi))
    simp only [PIDController.update, hl, if_neg hngt, if_pos hlt, if_pos hKi]
    refine ⟨trivial, ?_⟩
    field_simp
    ring

/-- Witness for C1: with gains `(1, 1, 1)` and limits `(-1, 1)`, the call
`update 10 1` saturates high at `1` and `update (-10) 1` saturates low
at `-1`. -/
theorem pid_update_antiwindup_consistency_witness :
    ((PIDController.init 1 1 1 (some (-1, 1))).update 10 1).2 = 1 ∧
    ((PIDController.init 1 1 1 (some (-1, 1))).update (-10) 1).2 = -1 := by
  have h := pid_update_antiwindup_consistency (PIDController.init 1 1 1 (some (-1, 1)))
    10 1 (-1) 1 rfl (by norm_num) (by norm_num [PIDController.init])
  have h2 := pid_update_antiwindup_consistency (PIDController.init 1 1 1 (some (-1, 1)))
    (-10) 1 (-1) 1 rfl (by norm_num) (by norm_num [PIDController.init])
  exact ⟨(h.1 (by norm_num [PIDController.init])).1,
    (h2.2 (by norm_num [PIDController.init])).1⟩

/-- Claim C3: an `update` with `dt > 0` whose raw output is inside the limits
(or has no limits set) returns
`Kp*error + Ki*(integral₀ + error*dt) + Kd*(error - previous_error₀)/dt`,
stores `integral₀ + error*dt` as the integral and the current error as
`previous_error`. -/
theorem pid_update_unsaturated_formula (c : PIDController) (e dt : ℚ)
    (hdt : 0 < dt)
    (hns : ∀ lo hi, c.output_limits = some (lo, hi) →
      lo ≤ c.Kp * e + c.Ki * (c.integral + e * dt) +
          c.Kd * ((e - c.previous_error) / dt) ∧
      c.Kp * e + c.Ki * (c.integral + e * dt) +
          c.Kd * ((e - c.previous_error) / dt) ≤ hi) :
    (c.update e dt).2 = c.Kp * e + c.Ki * (c.integral + e * dt) +
      c.Kd * ((e - c.previous_error) / dt) ∧
    (c.update e dt).1.integral = c.integral + e * dt ∧
    (c.update e dt).1.previous_error = e := by
  cases hlim : c.output_limits with
  | none =>
    simp only [PIDController.update, if_pos hdt, hlim]
    exact ⟨by trivial, by trivial, by trivial⟩
  | some lohi =>
    obtain ⟨lo, hi⟩ := lohi
    obtain ⟨h1, h2⟩ := hns lo hi hlim
    simp only [PIDController.update, if_pos hdt, hlim]
    rw [if_neg (not_lt.mpr h2), if_neg (not_lt.mpr h1)]
    exact ⟨by trivial, by trivial, by trivial⟩

/-- Witness for C3: a fresh unlimited controller with gains `(1, 1, 1)` on
`update 1 1` returns `1*1 + 1*(0 + 1*1) + 1*((1-0)/1) = 3` and stores
integral `1` and previous error `1`. -/
theorem pid_update_unsaturated_formula_witness :
    ((PIDController.init 1 1 1 none).update 1 1).2 = 3 ∧
    ((PIDController.init 1 1 1 none).update 1 1).1.integral = 1 ∧
    ((PIDController.init 1 1 1 none).update 1 1).1.previous_error = 1 := by
  have h := pid_update_unsaturated_formula (PIDController.init 1 1 1 none) 1 1
    (by norm_num) (fun lo hi hlim => by cases hlim)
  refine ⟨h.1.trans (by norm_num [PIDController.init]),
    h.2.1.trans (by norm_num [PIDController.init]), h.2.2⟩

/-- Claim C7: an `update` with `dt = 0` stores a zero derivative component for
any error values — the `dt > 0` guard avoids the division — and the returned
output is the optional clamp of `P + I + 0`. -/
theorem pid_update_dt_zero_derivative (c : PIDController) (e : ℚ) :
    ((c.update e 0).1).derivative_term = 0 ∧
    (c.update e 0).2 =
      (match c.output_limits with
       | none => c.Kp * e + c.Ki * (c.integral + e * 0) + 0
       | some (lo, hi) =>
         if hi < c.Kp * e + c.Ki * (c.integral + e * 0) + 0 then hi
         else if c.Kp * e + c.Ki * (c.integral + e * 0) + 0 < lo then lo
         else c.Kp * e + c.Ki * (c.integral + e * 0) + 0) := by
  cases hlim : c.output_limits with
  | none =>
    simp only [PIDController.update, hlim, if_neg (lt_irrefl (0 : ℚ)), mul_zero]
    exact ⟨by trivial, by trivial⟩
  | some lohi =>
    obtain ⟨lo, hi⟩ := lohi
    simp only [PIDController.update, hlim, if_neg (lt_irrefl (0 : ℚ)), mul_zero]
    constructor
    · split_ifs <;> rfl
    · split_ifs <;> rfl

/-- Claim C8: `reset()` makes a used controller behave exactly like a freshly
constructed one with the same gains and limits — identical outputs and
component values along every subsequent call sequence — and leaves the gains
and `output_limits` unchanged. -/
theorem pid_reset_fresh_equivalence (c : PIDController) (calls : List (ℚ × ℚ)) :
    (c.reset).runTrace calls =
      (PIDController.init c.Kp c.Ki c.Kd c.output_limits).runTrace calls ∧
    (c.reset).Kp = c.Kp ∧ (c.reset).Ki = c.Ki ∧ (c.reset).Kd = c.Kd ∧
    (c.reset).output_limits = c.output_limits :=
  ⟨rfl, rfl, rfl, rfl, rfl⟩

/-- Claim C5: constructing a plant with a type tag other than the three
recognized variants fails at construction time with the unknown-system-type
error (never silently defaulting), while each recognized tag constructs
successfully. -/
theorem init_unknown_system_type (tag : String) (p : Params) :
    (tag ≠ "First Order" ∧ tag ≠ "Second Order" ∧ tag ≠ "Integrator" →
      SystemSimulation.init tag p = .error (.unknownSystemType tag)) ∧
    (tag = "First Order" ∨ tag = "Second Order" ∨ tag = "Integrator" →
      ∃ s, SystemSimulation.init tag p = .ok s) := by
  constructor
  · rintro ⟨h1, h2, h3⟩
    simp only [SystemSimulation.init, if_neg h1, if_neg h2, if_neg h3]
  · rintro (rfl | rfl | rfl)
    · exact ⟨_, rfl⟩
    · exact ⟨_, rfl⟩
    · exact ⟨_, rfl⟩

/-- Witness for C5: the tag `"Delay"` is rejected with the
unknown-system-type error and the tag `"Integrator"` is accepted. -/
theorem init_unknown_system_type_witness :
    SystemSimulation.init "Delay" ⟨none, none, none, none⟩ =
      .error (SimError.unknownSystemType "Delay") ∧
    ∃ s, SystemSimulation.init "Integrator" ⟨none, none, none, none⟩ = .ok s :=
  ⟨(init_unknown_system_type "Delay" ⟨none, none, none, none⟩).1
      ⟨by decide, by decide, by decide⟩,
    (init_unknown_system_type "Integrator" ⟨none, none, none, none⟩).2
      (Or.inr (Or.inr rfl))⟩

/-- Claim C10: for each recognized type tag, construction succeeds for every
parameter mapping — absent keys are silently replaced by the `dict.get`
defaults (`time_constant` 1.0, `gain` 1.0, `damping` 0.5,
`natural_freq` 1.0) — so construction fails exactly on unrecognized tags. -/
theorem init_recognized_types_total_defaults (p : Params) :
    (∃ s, SystemSimulation.init "First Order" p = .ok s ∧
      s.time_constant = p.time_constant.getD 1 ∧ s.gain = p.gain.getD 1) ∧
    (∃ s, SystemSimulation.init "Second Order" p = .ok s ∧
      s.damping = p.damping.getD (1/2) ∧ s.natural_freq = p.natural_freq.getD 1 ∧
      s.gain = p.gain.getD 1) ∧
    (∃ s, SystemSimulation.init "Integrator" p = .ok s ∧ s.gain = p.gain.getD 1) :=
  ⟨⟨_, rfl, rfl, rfl⟩, ⟨_, rfl, rfl, rfl, rfl⟩, ⟨_, rfl, rfl⟩⟩

/-- Counterexample for C4: a first-order plant accepts `time_constant = 0`
at construction, and `update` then fails with the Python `ZeroDivisionError`
from the unguarded division, which is not the `InvalidParameter` error the
claim announces. -/
theorem firstOrder_tau_zero_counterexample :
    SystemSimulation.init "First Order" ⟨some 0, none, none, none⟩ =
      .ok ⟨"First Order", 0, 1, 0, 0, 0, 0⟩ ∧
    SystemSimulation.update ⟨"First Order", 0, 1, 0, 0, 0, 0⟩ 1 (1/100) =
      .error .zeroDivisionError ∧
    (Except.error SimError.zeroDivisionError :
      Except SimError (SystemSimulation × ℚ)) ≠ .error .invalidParameter :=
  ⟨rfl, rfl, by simp⟩

/-- Claim C4 (amended): for a first-order plant, `update` with
`time_constant = 0` fails at first use with the `ZeroDivisionError` of the
unguarded division `(K*u - y)/τ` — not with a construction-time or
`InvalidParameter` guard — and for `time_constant ≠ 0` it performs the Euler
step `y += (K*u - y)/τ * dt`. -/
theorem firstOrder_update_tau_guard (s : SystemSimulation) (u dt : ℚ)
    (hty : s.system_type = "First Order") :
    (s.time_constant = 0 → s.update u dt = .error .zeroDivisionError) ∧
    (s.time_constant ≠ 0 → s.update u dt =
      .ok ({ s with output :=
               s.output + (s.gain * u - s.output) / s.time_constant * dt },
        s.output + (s.gain * u - s.output) / s.time_constant * dt)) := by
  constructor
  · intro h
    simp [SystemSimulation.update, hty, h]
  · intro h
    simp [SystemSimulation.update, hty, h]

/-- Witness for C4 (amended): with `τ = 0` the update errors; with `τ = 2`,
gain `1`, output `0`, input `1` and `dt = 1` the update returns `1/2`. -/
theorem firstOrder_update_tau_guard_witness :
    SystemSimulation.update ⟨"First Order", 0, 1, 0, 0, 0, 0⟩ 1 1 =
      .error .zeroDivisionError ∧
    SystemSimulation.update ⟨"First Order", 2, 1, 0, 0, 0, 0⟩ 1 1 =
      .ok (⟨"First Order", 2, 1, 0, 0, 1/2, 0⟩, 1/2) := by
  constructor
  · exact (firstOrder_update_tau_guard ⟨"First Order", 0, 1, 0, 0, 0, 0⟩ 1 1 rfl).1 rfl
  · have h := (firstOrder_update_tau_guard ⟨"First Order", 2, 1, 0, 0, 0, 0⟩ 1 1 rfl).2
      (by norm_num)
    rw [h]
    norm_num

/-- Claim C6: a second-order `update` advances `(y, ẏ)` to
`(y + dt*ẏ, ẏ + dt*(-ωn²*y - 2ζωn*ẏ + ωn²*K*u))` with both derivatives taken
from the pre-update snapshot (synchronized explicit Euler), and returns the
updated `y`. -/
theorem secondOrder_update_synchronized_euler (s : SystemSimulation)
    (u dt : ℚ) (hty : s.system_type = "Second Order") :
    s.update u dt =
      .ok ({ s with
              output := s.output + dt * s.output_dot,
              output_dot := s.output_dot +
                dt * (-(s.natural_freq ^ 2) * s.output -
                  2 * s.damping * s.natural_freq * s.output_dot +
                  s.natural_freq ^ 2 * s.gain * u) },
        s.output + dt * s.output_dot) := by
  simp [SystemSimulation.update, hty]
  refine ⟨⟨by ring, by ring⟩, by ring⟩

/-- Witness for C6: from state `(y, ẏ) = (2, 3)` with `ζ = 1/2`, `ωn = 1`,
`K = 1`, input `1` and `dt = 1/10`, the update returns `23/10` and the new
state is `(23/10, 13/5)`. -/
theorem secondOrder_update_synchronized_euler_witness :
    SystemSimulation.update ⟨"Second Order", 0, 1, 1/2, 1, 2, 3⟩ 1 (1/10) =
      .ok (⟨"Second Order", 0, 1, 1/2, 1, 23/10, 13/5⟩, 23/10) := by
  have h := secondOrder_update_synchronized_euler
    ⟨"Second Order", 0, 1, 1/2, 1, 2, 3⟩ 1 (1/10) rfl
  rw [h]
  norm_num

/-- Helper for C9: on an integrator plant, `n` updates with constant input
`u` and step `dt` add exactly `n * (gain*u*dt)` to the output. -/
theorem integrator_iterate_general (s : SystemSimulation) (u dt : ℚ)
    (hty : s.system_type = "Integrator") (n : ℕ) :
    s.iterate u dt n = .ok { s with output := s.output + n * (s.gain * u * dt) } := by
  induction n generalizing s with
  | zero =>
    simp only [SystemSimulation.iterate, Nat.cast_zero, zero_mul, add_zero]
  | succ n ih =>
    have hup : s.update u dt =
        .ok ({ s with output := s.output + s.gain * u * dt },
          s.output + s.gain * u * dt) := by
      simp [SystemSimulation.update, hty]
    rw [SystemSimulation.iterate, hup, exceptBind_ok]
    refine (ih { s with output := s.output + s.gain * u * dt } hty).trans ?_
    congr 1
    congr 1
    push_cast
    ring

/-- Claim C9: an integrator plant with gain `K` starting from output `0`
reaches output exactly `K*u*n*dt` after `n` updates with constant input `u`
and step `dt` — no truncation error in this linear case. -/
theorem integrator_constant_input_exact (s : SystemSimulation) (u dt : ℚ)
    (n : ℕ) (hty : s.system_type = "Integrator") (h0 : s.output = 0) :
    s.iterate u dt n = .ok { s with output := s.gain * u * n * dt } := by
  rw [integrator_iterate_general s u dt hty n, h0]
  congr 1
  congr 1
  ring

/-- Witness for C9: an integrator with gain `1` from output `0`, on `3`
updates with input `2` and step `1/2`, reaches output `1*2*3*(1/2) = 3`. -/
theorem integrator_constant_input_exact_witness :
    SystemSimulation.iterate ⟨"Integrator", 0, 1, 0, 0, 0, 0⟩ 2 (1/2) 3 =
      .ok ⟨"Integrator", 0, 1, 0, 0, 3, 0⟩ := by
  have h := integrator_constant_input_exact ⟨"Integrator", 0, 1, 0, 0, 0, 0⟩
    2 (1/2) 3 rfl rfl
  rw [h]
  norm_num

/-- The number of samples of `linspace` is its `num` argument. -/
theorem linspace_length (stop : ℚ) (num : ℕ) : (linspace stop num).length = num := by
  rw [linspace, List.length_map, List.length_range]

/-- Sample `i` of `linspace 0..stop` with at least two samples is
`i*stop/(num-1)`. -/
theorem linspace_getElem? (stop : ℚ) (num i : ℕ) (hi : i < num) (hne : num ≠ 1) :
    (linspace stop num)[i]? = some ((i : ℚ) * stop / ((num : ℚ) - 1)) := by
  rw [linspace, List.getElem?_map, List.getElem?_range hi]
  simp [hne]

/-- A successful `n`-step driver loop fills exactly `n` error, control and
output entries. -/
theorem simSteps_lengths (sp dt : ℚ) :
    ∀ (n : ℕ) (pid : PIDController) (sys : SystemSimulation) (y : ℚ)
      (es us ys : List ℚ),
      simSteps sp dt n pid sys y = .ok (es, us, ys) →
      es.length = n ∧ us.length = n ∧ ys.length = n := by
  intro n
  induction n with
  | zero =>
    intro pid sys y es us ys h
    rw [simSteps] at h
    simp only [Except.ok.injEq, Prod.mk.injEq] at h
    obtain ⟨h1, h2, h3⟩ := h
    subst h1; subst h2; subst h3
    exact ⟨rfl, rfl, rfl⟩
  | succ n ih =>
    intro pid sys y es us ys h
    rw [simSteps] at h
    cases hsu : sys.update (pid.update (sp - y) dt).2 dt with
    | error err =>
      rw [hsu, exceptBind_error] at h
      cases h
    | ok su =>
      rw [hsu, exceptBind_ok] at h
      cases hrest : simSteps sp dt n (pid.update (sp - y) dt).1 su.1 su.2 with
      | error err =>
        rw [hrest, exceptBind_error] at h
        cases h
      | ok rest =>
        obtain ⟨r1, r2, r3⟩ := rest
        rw [hrest, exceptBind_ok] at h
        simp only [Except.ok.injEq, Prod.mk.injEq] at h
        obtain ⟨h1, h2, h3⟩ := h
        subst h1; subst h2; subst h3
        obtain ⟨k1, k2, k3⟩ := ih (pid.update (sp - y) dt).1 su.1 su.2 r1 r2 r3 hrest
        simp [k1, k2, k3]

/-- Claim C2 (amended): a successful simulation run with `dt = 1/100`
produces four arrays that all have length `N = floor(duration/dt)`, and
`time[i] = i*duration/(N-1)` — the `numpy.linspace` grid over
`[0, duration]`, which equals `i*dt` only when `duration = (N-1)*dt`. -/
theorem simulate_array_lengths_time_grid (Kp Ki Kd sp duration : ℚ)
    (sys : SystemSimulation) (d : SimData)
    (h : simulate Kp Ki Kd sp duration (1/100) sys = .ok d) :
    d.time.length = (⌊duration / (1/100 : ℚ)⌋).toNat ∧
    d.output.length = (⌊duration / (1/100 : ℚ)⌋).toNat ∧
    d.control_signal.length = (⌊duration / (1/100 : ℚ)⌋).toNat ∧
    d.error.length = (⌊duration / (1/100 : ℚ)⌋).toNat ∧
    ∀ i : ℕ, i < (⌊duration / (1/100 : ℚ)⌋).toNat →
      d.time[i]? = some ((i : ℚ) * duration /
        (((⌊duration / (1/100 : ℚ)⌋).toNat : ℚ) - 1)) := by
  simp only [simulate] at h
  set N := (⌊duration / (1/100 : ℚ)⌋).toNat with hN
  by_cases hle : N ≤ 1
  · rw [if_pos hle] at h
    cases h
  · rw [if_neg hle] at h
    cases hr : simSteps sp (1/100) (N - 1) (PIDController.init Kp Ki Kd none) sys 0 with
    | error err =>
      rw [hr, exceptBind_error] at h
      cases h
    | ok r =>
      obtain ⟨es, us, ys⟩ := r
      rw [hr, exceptBind_ok] at h
      obtain ⟨k1, k2, k3⟩ := simSteps_lengths sp (1/100) (N - 1) _ _ _ es us ys hr
      injection h with h
      subst h
      refine ⟨linspace_length duration N, ?_, ?_, ?_, ?_⟩
      · simp only [SimData.output, List.length_cons, k3]
        omega
      · simp only [SimData.control_signal, List.length_append, List.length_cons,
          List.length_nil, k2]
        omega
      · simp only [SimData.error, List.length_append, List.length_cons,
          List.length_nil, k1]
        omega
      · intro i hi
        exact linspace_getElem? duration N i hi (by omega)

/-- Counterexample for C2: with `duration = 3/100` and `dt = 1/100` the run
succeeds with `N = 3` samples, but `time[1] = 3/200`, not `1*dt = 1/100` —
the time grid is `numpy.linspace(0, duration, N)`, not an `i*dt` grid. -/
theorem simulate_time_grid_counterexample :
    simulate 0 0 0 0 (3/100) (1/100) ⟨"Integrator", 0, 1, 0, 0, 0, 0⟩ =
      .ok ⟨[0, 3/200, 3/100], [0, 0, 0], [0, 0, 0], [0, 0, 0]⟩ ∧
    (SimData.time ⟨[0, 3/200, 3/100], [0, 0, 0], [0, 0, 0], [0, 0, 0]⟩)[1]? ≠
      some ((1 : ℚ) * (1/100)) := by
  constructor
  · have h3 : (⌊(3/100 : ℚ) / (1/100 : ℚ)⌋).toNat = 3 := by
      norm_num
      rfl
    simp only [simulate, h3]
    norm_num +decide [simSteps, PIDController.init, PIDController.update,
      SystemSimulation.update, linspace, List.range_succ, exceptBind_ok,
      exceptBind_error, List.getLastD]
  · norm_num

/-- Witness for C2 (amended): on the `duration = 3/100` run the time array
has length `3` and `time[1] = 1*(3/100)/(3-1) = 3/200`. -/
theorem simulate_array_lengths_time_grid_witness :
    ([0, 3/200, 3/100] : List ℚ).length = 3 ∧
    ([0, 3/200, 3/100] : List ℚ)[1]? =
      some (((1 : ℕ) : ℚ) * (3/100) / (((3 : ℕ) : ℚ) - 1)) := by
  have hsim : simulate 0 0 0 0 (3/100) (1/100) ⟨"Integrator", 0, 1, 0, 0, 0, 0⟩ =
      .ok ⟨[0, 3/200, 3/100], [0, 0, 0], [0, 0, 0], [0, 0, 0]⟩ := by
    have h3 : (⌊(3/100 : ℚ) / (1/100 : ℚ)⌋).toNat = 3 := by
      norm_num
      rfl
    simp only [simulate, h3]
    norm_num +decide [simSteps, PIDController.init, PIDController.update,
      SystemSimulation.update, linspace, List.range_succ, exceptBind_ok,
      exceptBind_error, List.getLastD]
  have h := simulate_array_lengths_time_grid 0 0 0 0 (3/100)
    ⟨"Integrator", 0, 1, 0, 0, 0, 0⟩
    ⟨[0, 3/200, 3/100], [0, 0, 0], [0, 0, 0], [0, 0, 0]⟩ hsim
  have h3 : (⌊(3/100 : ℚ) / (1/100 : ℚ)⌋).toNat = 3 := by
    norm_num
    rfl
  rw [h3] at h
  exact ⟨h.1, h.2.2.2.2 1 (by norm_num)⟩
